import Mathlib

/-!
Verification of the Bedrock agent invocation / response-extraction routine
(`BedrockAgentCore.create_agent_request` and `BedrockAgentCore.invoke_agent`
in `src/cdk/lambda/oscar-agent/bedrock/agent_invoker.py`).

The embedding is a shallow translation of the Python code.  JSON values are
modelled by an inductive `Json` type; the dynamically-typed dictionary
accesses of the source (`d.get(k, v)`, `k in d`, `d[k]`, iteration, truth
testing, string concatenation, `.strip()`) are modelled by `py*` helpers
that return `Except PyError _`, raising the same error classes Python would
raise (AttributeError for `.get` on a non-dict, TypeError for `in` /
subscripting / iterating unsupported values, and so on).

Two parts of the behaviour come from the Python standard library rather
than from this repository and are abstracted:
  * `json.loads` is a parameter `loads : String -> Option Json`
    (`none` models `json.JSONDecodeError`); every theorem is universally
    quantified over it;
  * a chunk's `bytes` payload is modelled by its UTF-8 decode outcome
    (`BytesVal.decoded s` for bytes that decode to `s`,
    `BytesVal.undecodable` for bytes on which `.decode("utf-8")` raises
    `UnicodeDecodeError`).
-/

namespace OscarAgent

/-- Model of a Python JSON value (the result of `json.loads`, and the
shape of the nested trace payloads handed over by the streaming client). -/
inductive Json where
  | null
  | bool (b : Bool)
  | num (n : Int)
  | str (s : String)
  | arr (elems : List Json)
  | obj (entries : List (String × Json))

/-- Python error classes that the modelled fragment can raise. -/
inductive PyError where
  | attributeError
  | typeError
  | keyError
  | jsonDecodeError
  | unicodeDecodeError
deriving DecidableEq

/-- Python truthiness (`bool(x)`) for the modelled JSON values. -/
def pyTruthy : Json → Bool
  | .null => false
  | .bool b => b
  | .num n => n != 0
  | .str s => s != ""
  | .arr xs => !xs.isEmpty
  | .obj kvs => !kvs.isEmpty

/-- Whether a JSON value is an object (a Python `dict`). -/
def Json.isObj : Json → Bool
  | .obj _ => true
  | _ => false

/-- First binding of a key in an association list (Python dict lookup;
dicts produced by `json.loads` have unique keys). -/
def lookupKey : List (String × Json) → String → Option Json
  | [], _ => none
  | kv :: rest, key => if kv.1 = key then some kv.2 else lookupKey rest key

/-- Python `d.get(key, dflt)`: works on dicts, raises AttributeError on
any other value. -/
def pyGetD : Json → String → Json → Except PyError Json
  | .obj kvs, key, dflt => .ok ((lookupKey kvs key).getD dflt)
  | _, _, _ => .error .attributeError

/-- Substring containment test used by Python's `needle in haystack` on
strings. -/
def pyStrContains (s pat : String) : Bool := (s.splitOn pat).length != 1

/-- Python `key in x` for a string key: key membership on dicts, substring
test on strings, element equality on lists; TypeError otherwise. -/
def pyIn (key : String) : Json → Except PyError Bool
  | .obj kvs => .ok (kvs.any (fun kv => kv.1 == key))
  | .str s => .ok (pyStrContains s key)
  | .arr xs => .ok (xs.any (fun el => match el with | .str t => t == key | _ => false))
  | _ => .error .typeError

/-- Python `x[key]` for a string key: dict lookup (KeyError when absent),
TypeError on any non-dict. -/
def pySubscript : Json → String → Except PyError Json
  | .obj kvs, key =>
    match lookupKey kvs key with
    | some v => .ok v
    | none => .error .keyError
  | _, _ => .error .typeError

/-- Python iteration `for x in v`: list elements, characters of a string
(as one-character strings), keys of a dict; TypeError otherwise. -/
def pyIter : Json → Except PyError (List Json)
  | .arr xs => .ok xs
  | .str s => .ok (s.toList.map (fun c => .str (String.singleton c)))
  | .obj kvs => .ok (kvs.map (fun kv => .str kv.1))
  | _ => .error .typeError

/-- Python `x == lit` against a string literal: true only for an equal
string, false (no error) for any other value. -/
def pyEqStr : Json → String → Bool
  | .str s, t => s == t
  | _, _ => false

/-- Python `x += t` where `t` is a string: string concatenation when `x`
is a string, TypeError otherwise. -/
def pyAppend : Json → String → Except PyError Json
  | .str s, t => .ok (.str (s ++ t))
  | _, _ => .error .typeError

/-- Leading- and trailing-whitespace removal on a character list. -/
def stripList (cs : List Char) : List Char :=
  ((cs.dropWhile Char.isWhitespace).reverse.dropWhile Char.isWhitespace).reverse

/-- Python `s.strip()` on a string: remove leading and trailing
whitespace. -/
def stripStr (s : String) : String := (stripList s.toList).asString

/-- Python `x.strip()`: trims whitespace from a string, raises
AttributeError on any non-string value. -/
def pyStrip : Json → Except PyError String
  | .str s => .ok (stripStr s)
  | _ => .error .attributeError

/-- Python `json.loads(x)`: the parser itself is the standard library's,
so it is passed in as `loads` (with `none` standing for
`json.JSONDecodeError`); applying it to a non-string raises TypeError. -/
def pyJsonLoads (loads : String → Option Json) : Json → Except PyError Json
  | .str s =>
    match loads s with
    | some j => .ok j
    | none => .error .jsonDecodeError
  | _ => .error .typeError

/-- Python truthiness of an optional string argument (`None` and `""` are
falsy). -/
def optTruthy : Option String → Bool
  | some s => s != ""
  | none => false

/-! ## The send-message extraction walk (agent_invoker.py lines 140-150)

`itemStep` is the body of `for content_item in message_content:`: it
returns `some content` when this item assigns `response_text` (a truthy
`toolUse` named `AgentCommunication__sendMessage`, recipient `User`, with
truthy content) and `none` when it does not, raising exactly where Python
would. -/

/-- One iteration of the content-item loop, lines 140-150 of
agent_invoker.py: the optional value this item assigns to
`response_text`. -/
def itemStep (item : Json) : Except PyError (Option Json) :=
  match pyIn "toolUse" item with
  | .error e => .error e
  | .ok false => .ok none
  | .ok true =>
    match pyGetD item "toolUse" .null with
    | .error e => .error e
    | .ok toolUse =>
      if pyTruthy toolUse then
        match pyGetD toolUse "name" .null with
        | .error e => .error e
        | .ok name =>
          if pyEqStr name "AgentCommunication__sendMessage" then
            match pyGetD toolUse "input" (.obj []) with
            | .error e => .error e
            | .ok toolInput =>
              match pyGetD toolInput "recipient" .null with
              | .error e => .error e
              | .ok recipient =>
                if pyEqStr recipient "User" then
                  match pyGetD toolInput "content" (.str "") with
                  | .error e => .error e
                  | .ok content => .ok (if pyTruthy content then some content else none)
                else .ok none
          else .ok none
      else .ok none

/-- The content-item loop itself: threads `response_text` (`rt`) through
`itemStep` for each item, assignments overwriting the running value. -/
def walkItems : List Json → Json → Except PyError Json
  | [], rt => .ok rt
  | item :: rest, rt =>
    match itemStep item with
    | .error e => .error e
    | .ok none => walkItems rest rt
    | .ok (some c) => walkItems rest c

/-- Specification-side view of the loop: the last value the loop assigns,
if any.  Because the loop only ever writes `response_text`, its net effect
is its last assignment; `walkItems_eq_itemsLast` proves the relation. -/
def itemsLast : List Json → Except PyError (Option Json)
  | [] => .ok none
  | item :: rest =>
    match itemStep item with
    | .error e => .error e
    | .ok o =>
      match itemsLast rest with
      | .error e => .error e
      | .ok (some c) => .ok (some c)
      | .ok none => .ok o

/-- Line 137: `parsed.get('output', {}).get('message', {}).get('content', [])`
followed by the implicit iteration of the `for` loop. -/
def itemsOfParsed (parsed : Json) : Except PyError (List Json) :=
  match pyGetD parsed "output" (.obj []) with
  | .error e => .error e
  | .ok outputVal =>
    match pyGetD outputVal "message" (.obj []) with
    | .error e => .error e
    | .ok messageVal =>
      match pyGetD messageVal "content" (.arr []) with
      | .error e => .error e
      | .ok contentVal => pyIter contentVal

/-- Lines 136-140: `json.loads` on the raw content followed by the
message-content extraction. -/
def parsedItems (loads : String → Option Json) (rawContent : Json) : Except PyError (List Json) :=
  match pyJsonLoads loads rawContent with
  | .error e => .error e
  | .ok parsed => itemsOfParsed parsed

/-- Lines 125-133: the guard cascade over the trace payload
(`event['trace'].get('trace', {})`, `'orchestrationTrace' in trace`, ...),
returning the `rawResponse['content']` value when every guard passes and
`none` when some membership guard fails. -/
def traceRawContent (payload : Json) : Except PyError (Option Json) :=
  match pyGetD payload "trace" (.obj []) with
  | .error e => .error e
  | .ok trace =>
    match pyIn "orchestrationTrace" trace with
    | .error e => .error e
    | .ok false => .ok none
    | .ok true =>
      match pySubscript trace "orchestrationTrace" with
      | .error e => .error e
      | .ok orchTrace =>
        match pyIn "modelInvocationOutput" orchTrace with
        | .error e => .error e
        | .ok false => .ok none
        | .ok true =>
          match pySubscript orchTrace "modelInvocationOutput" with
          | .error e => .error e
          | .ok modelOutput =>
            match pyIn "rawResponse" modelOutput with
            | .error e => .error e
            | .ok false => .ok none
            | .ok true =>
              match pySubscript modelOutput "rawResponse" with
              | .error e => .error e
              | .ok rawResponse =>
                match pyGetD rawResponse "content" (.str "") with
                | .error e => .error e
                | .ok rawContent => .ok (some rawContent)

/-- The body of the `try` at lines 134-151: parse the raw content and run
the content-item loop on it. -/
def parseWalk (loads : String → Option Json) (rawContent rt : Json) : Except PyError Json :=
  match parsedItems loads rawContent with
  | .error e => .error e
  | .ok items => walkItems items rt

/-- The `except json.JSONDecodeError` handler at lines 151-152: swallow a
decode error (keeping `response_text` at `rt`), pass everything else
through. -/
def catchDecode (x : Except PyError Json) (rt : Json) : Except PyError Json :=
  match x with
  | .error .jsonDecodeError => .ok rt
  | other => other

/-- Lines 121-152: processing of one trace event's payload.  The
`try ... except json.JSONDecodeError` of the source wraps the parse and
the walk; a `jsonDecodeError` is swallowed (leaving `response_text`
unchanged), every other error propagates. -/
def processTracePayload (loads : String → Option Json) (payload : Json) (rt : Json) :
    Except PyError Json :=
  match traceRawContent payload with
  | .error e => .error e
  | .ok none => .ok rt
  | .ok (some rawContent) => catchDecode (parseWalk loads rawContent rt) rt

/-- Specification-side counterpart of `parseWalk`: the last assignment the
parsed content makes. -/
def parseLast (loads : String → Option Json) (rawContent : Json) : Except PyError (Option Json) :=
  match parsedItems loads rawContent with
  | .error e => .error e
  | .ok items => itemsLast items

/-- Specification-side counterpart of `catchDecode`. -/
def catchDecodeLast (x : Except PyError (Option Json)) : Except PyError (Option Json) :=
  match x with
  | .error .jsonDecodeError => .ok none
  | other => other

/-- Specification-side view of one trace payload: the last value the trace
block assigns to `response_text`, if any. -/
def traceLast (loads : String → Option Json) (payload : Json) : Except PyError (Option Json) :=
  match traceRawContent payload with
  | .error e => .error e
  | .ok none => .ok none
  | .ok (some rawContent) => catchDecodeLast (parseLast loads rawContent)

/-! ## Events, the stream loop and the full call -/

/-- A chunk's byte payload, modelled by its UTF-8 decode outcome (the
decoding itself is `bytes.decode` from the Python runtime). -/
inductive BytesVal where
  | decoded (text : String)
  | undecodable

/-- The value of `event['chunk']`: an optional `bytes` payload and an
optional `sessionId` (the code only tests key presence). -/
structure ChunkData where
  bytes : Option BytesVal
  sessionId : Option String

/-- One streamed completion event.  The source probes `'trace' in event`
and `'chunk' in event` independently, so both parts are optional. -/
structure Event where
  trace : Option Json
  chunk : Option ChunkData

/-- The two pieces of running state of the reduction loop:
`response_text` (a dynamically-typed Python variable, hence `Json`) and
`returned_session_id`. -/
structure PState where
  responseText : Json
  sessionId : Option String

/-- Lines 160-165: the `if 'bytes' in chunk:` block — decode the bytes
(UnicodeDecodeError propagates) and append the text only when
`response_text` is falsy. -/
def chunkBytesStep (b : Option BytesVal) (rt : Json) : Except PyError Json :=
  match b with
  | none => .ok rt
  | some .undecodable => .error .unicodeDecodeError
  | some (.decoded chunkText) =>
      if pyTruthy rt then .ok rt else pyAppend rt chunkText

/-- Lines 156-170: processing of `event['chunk']`.  Bytes are decoded
first (UnicodeDecodeError propagates); the decoded text is appended only
when `response_text` is falsy; a `sessionId` key overwrites the captured
session id. -/
def processChunk (ch : ChunkData) (st : PState) : Except PyError PState :=
  match chunkBytesStep ch.bytes st.responseText with
  | .error e => .error e
  | .ok rt =>
    .ok { responseText := rt,
          sessionId := match ch.sessionId with
                       | some s => some s
                       | none => st.sessionId }

/-- The `if 'trace' in event:` dispatch at line 121: run the trace block
when the event has a trace payload. -/
def traceStep (loads : String → Option Json) (trOpt : Option Json) (rt : Json) :
    Except PyError Json :=
  match trOpt with
  | none => .ok rt
  | some payload => processTracePayload loads payload rt

/-- Lines 121-170: one iteration of the event loop — the trace block
runs first, then the chunk block. -/
def processEvent (loads : String → Option Json) (ev : Event) (st : PState) :
    Except PyError PState :=
  match traceStep loads ev.trace st.responseText with
  | .error e => .error e
  | .ok rt =>
    match ev.chunk with
    | none => .ok { responseText := rt, sessionId := st.sessionId }
    | some ch => processChunk ch { responseText := rt, sessionId := st.sessionId }

/-- Lines 116-170: the `for event in response['completion']` loop. -/
def processEvents (loads : String → Option Json) : List Event → PState → Except PyError PState
  | [], st => .ok st
  | ev :: evs, st =>
    match processEvent loads ev st with
    | .error e => .error e
    | .ok st1 => processEvents loads evs st1

/-- A `botocore` ClientError: the service's error code and message. -/
structure ClientError where
  code : String
  message : String

/-- What `invoke_agent` can raise: a re-raised ClientError (lines
196-200) or any other exception from stream processing, re-raised at
lines 201-203. -/
inductive InvokeError where
  | client (e : ClientError)
  | streamFailure (e : PyError)

/-- The response envelope returned by the client: an optional
`completion` event stream and an optional top-level `sessionId`. -/
structure ResponseEnvelope where
  completion : Option (List Event)
  sessionId : Option String

/-- `f"session-{int(time.time())}"` with the clock reading passed in
explicitly. -/
def genSessionId (now : Nat) : String := "session-" ++ toString now

/-- Lines 177-189: the final session-id resolution
(`if 'sessionId' in response ... elif not returned_session_id and
session_id ... else ...`). -/
def resolveSessionId (topLevel captured requested : Option String) (now : Nat) : String :=
  match topLevel with
  | some s => s
  | none =>
    if !(optTruthy captured) && optTruthy requested then requested.getD ""
    else genSessionId now

/-- The four pre-configured agent identifiers read from configuration in
`BedrockAgentCore.__init__`. -/
structure AgentConfig where
  privilegedAgentId : String
  privilegedAgentAliasId : String
  limitedAgentId : String
  limitedAgentAliasId : String

/-- The request dictionary built by `create_agent_request`. -/
structure AgentRequest where
  agentId : String
  agentAliasId : String
  inputText : String
  sessionId : String
  enableTrace : Bool

/-- `BedrockAgentCore.create_agent_request` (lines 58-82): the limited
pair is selected and overwritten by the privileged pair when `privilege`
is set; the session id defaults to a time-derived one via
`session_id or f"session-{int(time.time())}"`. -/
def createAgentRequest (cfg : AgentConfig) (query : String) (privilege : Bool)
    (sessionId : Option String) (now : Nat) : AgentRequest :=
  { agentId := if privilege then cfg.privilegedAgentId else cfg.limitedAgentId,
    agentAliasId := if privilege then cfg.privilegedAgentAliasId else cfg.limitedAgentAliasId,
    inputText := query,
    sessionId := if optTruthy sessionId then sessionId.getD "" else genSessionId now,
    enableTrace := true }

/-- Lines 109-172: run the event loop over `response['completion']` when
the key is present, starting from an empty `response_text` and no captured
session id; an absent key leaves the initial state. -/
def completionState (loads : String → Option Json) (response : ResponseEnvelope) :
    Except PyError PState :=
  match response.completion with
  | some events => processEvents loads events { responseText := .str "", sessionId := none }
  | none => .ok { responseText := .str "", sessionId := none }

/-- Lines 171-194 applied to the outcome `cs` of the event loop: strip the
response text and resolve the session id against the top-level id `top`
and the request-supplied id. -/
def envelopeResult (loads : String → Option Json) (sessionId : Option String)
    (top : Option String) (cs : Except PyError PState) (now : Nat) :
    Except InvokeError (String × String) :=
  match cs with
  | .error e => .error (.streamFailure e)
  | .ok st =>
    match pyStrip st.responseText with
    | .error e => .error (.streamFailure e)
    | .ok text => .ok (text, resolveSessionId top st.sessionId sessionId now)

/-- `BedrockAgentCore.invoke_agent` (lines 84-203).  The single external
call `self.client.invoke_agent(**request)` is represented by its outcome
`clientResult`; its logging is omitted.  A ClientError from the call is
re-raised as `InvokeError.client`; any error raised during stream
processing or by the final `.strip()` is re-raised as
`InvokeError.streamFailure`.  On success the stripped response text and
the resolved session id are returned; note that the resolution at lines
181-184 consults the raw `session_id` parameter, not the (possibly
generated) id placed in the request. -/
def invokeAgent (loads : String → Option Json) (query : String) (privilege : Bool)
    (sessionId : Option String) (clientResult : Except ClientError ResponseEnvelope)
    (now : Nat) : Except InvokeError (String × String) :=
  match clientResult with
  | .error e => .error (.client e)
  | .ok response =>
    envelopeResult loads sessionId response.sessionId (completionState loads response) now

/-! ## Specification-side stream view for the precedence claims -/

/-- The optional last `response_text` assignment made by one event's
trace block. -/
def eventLast (loads : String → Option Json) (ev : Event) : Except PyError (Option Json) :=
  match ev.trace with
  | none => .ok none
  | some payload => traceLast loads payload

/-- The content of the last valid send-message tool invocation in a
stream, when there is one (errors and events without one contribute
nothing). -/
def streamLast (loads : String → Option Json) : List Event → Option Json
  | [] => none
  | ev :: evs =>
    match streamLast loads evs with
    | some c => some c
    | none =>
      match eventLast loads ev with
      | .ok (some c) => some c
      | _ => none

/-! ## Concrete fixtures used to evaluate the definitions -/

/-- A parsed raw response containing one send-message tool invocation
addressed to the user. -/
def toolMessageJson : Json :=
  .obj [("output", .obj [("message", .obj [("content", .arr [
    .obj [("toolUse", .obj [
      ("name", .str "AgentCommunication__sendMessage"),
      ("input", .obj [("recipient", .str "User"), ("content", .str "Hello from tool")])])]
  ])])])]

/-- A concrete `json.loads` stand-in: parses the string "TOOL" to
`toolMessageJson`, the string "ARR" to a JSON array, and fails on
everything else. -/
def loadsW : String → Option Json :=
  fun s => if s = "TOOL" then some toolMessageJson
           else if s = "ARR" then some (.arr [.num 1]) else none

/-- A trace payload whose `rawResponse.content` field is the string
`s`. -/
def contentTracePayload (s : String) : Json :=
  .obj [("trace", .obj [("orchestrationTrace", .obj [("modelInvocationOutput",
    .obj [("rawResponse", .obj [("content", .str s)])])])])]

/-- A trace event whose `rawResponse.content` field is the string `s`. -/
def contentTraceEvent (s : String) : Event :=
  { trace := some (contentTracePayload s), chunk := none }

/-- A chunk event whose bytes decode to the text `t`. -/
def chunkTextEvent (t : String) : Event :=
  { trace := none, chunk := some { bytes := some (.decoded t), sessionId := none } }

/-- A chunk event carrying only a session id. -/
def chunkSessionEvent (sid : String) : Event :=
  { trace := none, chunk := some { bytes := none, sessionId := some sid } }

/-- An event carrying an arbitrary optional trace payload and a chunk
whose bytes do not decode as UTF-8. -/
def undecodableChunkEvent (trOpt : Option Json) (sidc : Option String) : Event :=
  { trace := trOpt, chunk := some { bytes := some .undecodable, sessionId := sidc } }

/-- A stream interleaving chunk text around a send-message tool
invocation. -/
def evsW : List Event :=
  [chunkTextEvent "stream text", contentTraceEvent "TOOL", chunkTextEvent " tail"]

/-- An envelope carrying `evsW` and no top-level session id. -/
def envW : ResponseEnvelope := { completion := some evsW, sessionId := none }

/-! ## Lemmas about the reduction loop -/

/-- The content-item loop computes the last assignment `itemsLast`
describes: threading `rt` through the loop yields that last assigned
value, or `rt` when nothing is assigned. -/
lemma walkItems_eq (items : List Json) (rt : Json) :
    walkItems items rt = (itemsLast items).map (fun o => o.getD rt) := by
  induction items generalizing rt with
  | nil => rfl
  | cons item rest ih =>
    simp only [walkItems, itemsLast]
    cases itemStep item with
    | error e => rfl
    | ok o =>
      cases o with
      | none =>
        simp only [ih]
        cases itemsLast rest with
        | error e => rfl
        | ok o2 => cases o2 <;> rfl
      | some c =>
        simp only [ih]
        cases itemsLast rest with
        | error e => rfl
        | ok o2 => cases o2 <;> rfl

/-- A value assigned by the loop body is truthy (the source guards the
assignment with `if extracted_content:`). -/
lemma itemStep_truthy {item : Json} {c : Json} (h : itemStep item = .ok (some c)) :
    pyTruthy c = true := by
  unfold itemStep at h
  repeat' split at h
  all_goals cases h
  all_goals assumption

/-- The last value assigned by the loop is truthy. -/
lemma itemsLast_truthy {items : List Json} {c : Json} (h : itemsLast items = .ok (some c)) :
    pyTruthy c = true := by
  induction items with
  | nil => cases h
  | cons item rest ih =>
    unfold itemsLast at h
    cases h1 : itemStep item with
    | error e => rw [h1] at h; cases h
    | ok o =>
      rw [h1] at h
      cases h2 : itemsLast rest with
      | error e => rw [h2] at h; cases h
      | ok o2 =>
        rw [h2] at h
        cases o2 with
        | some c2 => cases h; exact ih h2
        | none => cases h; exact itemStep_truthy h1

/-- The last assignment of the parsed content is truthy. -/
lemma parseLast_truthy {loads : String → Option Json} {rc : Json} {c : Json}
    (h : parseLast loads rc = .ok (some c)) : pyTruthy c = true := by
  unfold parseLast at h
  split at h
  · cases h
  · exact itemsLast_truthy h

/-- The last value a trace block assigns is truthy. -/
lemma traceLast_truthy {loads : String → Option Json} {payload : Json} {c : Json}
    (h : traceLast loads payload = .ok (some c)) : pyTruthy c = true := by
  unfold traceLast at h
  split at h
  · cases h
  · cases h
  · unfold catchDecodeLast at h
    split at h
    · cases h
    · rename_i hne
      exact parseLast_truthy h

/-- The try-body computes the last assignment `parseLast` describes. -/
lemma parseWalk_eq (loads : String → Option Json) (rc rt : Json) :
    parseWalk loads rc rt = (parseLast loads rc).map (fun o => o.getD rt) := by
  unfold parseWalk parseLast
  cases parsedItems loads rc with
  | error e => rfl
  | ok items => exact walkItems_eq items rt

/-- The decode-error handler commutes with applying the last
assignment. -/
lemma catchDecode_eq (x : Except PyError (Option Json)) (rt : Json) :
    catchDecode (x.map (fun o => o.getD rt)) rt = (catchDecodeLast x).map (fun o => o.getD rt) := by
  unfold catchDecode catchDecodeLast
  cases x with
  | error e => cases e <;> rfl
  | ok o => cases o <;> rfl

/-- Processing a trace payload computes the last assignment that
`traceLast` describes. -/
lemma processTracePayload_eq (loads : String → Option Json) (payload rt : Json) :
    processTracePayload loads payload rt = (traceLast loads payload).map (fun o => o.getD rt) := by
  unfold processTracePayload traceLast
  cases traceRawContent payload with
  | error e => rfl
  | ok o =>
    cases o with
    | none => rfl
    | some rc =>
      exact (congrArg (fun x => catchDecode x rt) (parseWalk_eq loads rc rt)).trans
        (catchDecode_eq (parseLast loads rc) rt)

/-- The last assignment of an event is truthy. -/
lemma eventLast_truthy {loads : String → Option Json} {ev : Event} {c : Json}
    (h : eventLast loads ev = .ok (some c)) : pyTruthy c = true := by
  unfold eventLast at h
  split at h
  · cases h
  · exact traceLast_truthy h

/-- The trace dispatch computes the last assignment `eventLast`
describes. -/
lemma traceStep_eq (loads : String → Option Json) (ev : Event) (rt : Json) :
    traceStep loads ev.trace rt = (eventLast loads ev).map (fun o => o.getD rt) := by
  unfold traceStep eventLast
  cases ev.trace with
  | none => rfl
  | some payload => exact processTracePayload_eq loads payload rt

/-- If the trace block of an event fails, processing the event fails with
the same error. -/
lemma processEvent_of_eventLast_error {loads : String → Option Json} {ev : Event}
    {e : PyError} (hl : eventLast loads ev = .error e) (st : PState) :
    processEvent loads ev st = .error e := by
  unfold processEvent
  rw [traceStep_eq, hl]
  rfl

/-- A chunk cannot change a truthy `response_text`. -/
lemma processChunk_preserve {ch : ChunkData} {st st1 : PState}
    (h : processChunk ch st = .ok st1) (ht : pyTruthy st.responseText = true) :
    st1.responseText = st.responseText := by
  unfold processChunk at h
  split at h
  · cases h
  · rename_i rt heq
    cases h
    unfold chunkBytesStep at heq
    split at heq
    · cases heq; rfl
    · cases heq
    · rw [ht] at heq
      simp only [if_true] at heq
      cases heq
      rfl

/-- An event whose trace block assigns nothing leaves a truthy
`response_text` unchanged. -/
lemma processEvent_ok_none {loads : String → Option Json} {ev : Event} {st st1 : PState}
    (h : processEvent loads ev st = .ok st1) (hl : eventLast loads ev = .ok none)
    (ht : pyTruthy st.responseText = true) :
    st1.responseText = st.responseText := by
  unfold processEvent at h
  rw [traceStep_eq, hl] at h
  simp only [Except.map, Option.getD] at h
  split at h
  · cases h; rfl
  · exact processChunk_preserve h ht

/-- An event whose trace block last assigns `c` leaves `response_text`
equal to `c`. -/
lemma processEvent_ok_some {loads : String → Option Json} {ev : Event} {st st1 : PState}
    {c : Json} (h : processEvent loads ev st = .ok st1)
    (hl : eventLast loads ev = .ok (some c)) :
    st1.responseText = c := by
  have htr : pyTruthy c = true := eventLast_truthy hl
  unfold processEvent at h
  rw [traceStep_eq, hl] at h
  simp only [Except.map, Option.getD] at h
  split at h
  · cases h; rfl
  · exact processChunk_preserve h htr

/-- Over a stream with no send-message assignment, a truthy
`response_text` survives unchanged. -/
lemma processEvents_none {loads : String → Option Json} {evs : List Event} {st st1 : PState}
    (hsl : streamLast loads evs = none) (ht : pyTruthy st.responseText = true)
    (h : processEvents loads evs st = .ok st1) :
    st1.responseText = st.responseText := by
  induction evs generalizing st with
  | nil => unfold processEvents at h; cases h; rfl
  | cons ev evs ih =>
    unfold processEvents at h
    split at h
    · cases h
    · rename_i stm hpe
      unfold streamLast at hsl
      split at hsl
      · cases hsl
      · rename_i hsl2
        cases hel : eventLast loads ev with
        | error e =>
          rw [processEvent_of_eventLast_error hel st] at hpe
          cases hpe
        | ok o =>
          cases o with
          | some c => rw [hel] at hsl; cases hsl
          | none =>
            have hmid := processEvent_ok_none hpe hel ht
            have hrec := ih hsl2 (by rw [hmid]; exact ht) h
            rw [hrec, hmid]

/-- Over a stream whose last send-message assignment is `c`, the loop
ends with `response_text = c`: tool-extracted content wins over chunk
text. -/
lemma processEvents_last {loads : String → Option Json} {evs : List Event} {st st1 : PState}
    {c : Json} (hsl : streamLast loads evs = some c)
    (h : processEvents loads evs st = .ok st1) :
    st1.responseText = c := by
  induction evs generalizing st with
  | nil => cases hsl
  | cons ev evs ih =>
    unfold processEvents at h
    split at h
    · cases h
    · rename_i stm hpe
      unfold streamLast at hsl
      split at hsl
      · rename_i c2 hsl2
        cases hsl
        exact ih hsl2 h
      · rename_i hsl2
        cases hel : eventLast loads ev with
        | error e =>
          rw [processEvent_of_eventLast_error hel st] at hpe
          cases hpe
        | ok o =>
          cases o with
          | none => rw [hel] at hsl; cases hsl
          | some c2 =>
            rw [hel] at hsl
            cases hsl
            have hmid : stm.responseText = c := processEvent_ok_some hpe hel
            have htr : pyTruthy stm.responseText = true := by
              rw [hmid]; exact eventLast_truthy hel
            have hrec := processEvents_none hsl2 htr h
            rw [hrec, hmid]

/-- Splitting the event loop over an appended stream. -/
lemma processEvents_append (loads : String → Option Json) (xs ys : List Event) (st : PState) :
    processEvents loads (xs ++ ys) st =
      (match processEvents loads xs st with
       | .error e => .error e
       | .ok st1 => processEvents loads ys st1) := by
  induction xs generalizing st with
  | nil => rfl
  | cons ev xs ih =>
    simp only [List.cons_append, processEvents]
    cases processEvent loads ev st with
    | error e => rfl
    | ok st1 => exact ih st1

/-- An event that always fails makes the whole loop fail wherever it
appears in the stream. -/
lemma processEvents_err_middle {loads : String → Option Json} {evB : Event}
    (hbad : ∀ st : PState, ∃ e, processEvent loads evB st = .error e)
    (pre post : List Event) (st : PState) :
    ∃ e, processEvents loads (pre ++ evB :: post) st = .error e := by
  rw [processEvents_append]
  cases hp : processEvents loads pre st with
  | error e => exact ⟨e, rfl⟩
  | ok st1 =>
    obtain ⟨e, he⟩ := hbad st1
    refine ⟨e, ?_⟩
    simp only [processEvents]
    rw [he]

/-- An event that acts as the identity can be removed from the stream
without changing the loop's result. -/
lemma processEvents_skip_middle {loads : String → Option Json} {evM : Event}
    (hid : ∀ st : PState, processEvent loads evM st = .ok st)
    (pre post : List Event) (st : PState) :
    processEvents loads (pre ++ evM :: post) st = processEvents loads (pre ++ post) st := by
  rw [processEvents_append, processEvents_append]
  cases processEvents loads pre st with
  | error e => rfl
  | ok st1 =>
    simp only [processEvents]
    rw [hid st1]

/-- With no top-level id and no chunk-captured id, the resolution returns
the request-supplied id when it is a non-empty string and a generated id
otherwise. -/
lemma resolveSessionId_none_none (sid : Option String) (now : Nat) :
    resolveSessionId none none sid now =
      (match sid with
       | some s => if s = "" then genSessionId now else s
       | none => genSessionId now) := by
  cases sid with
  | none => rfl
  | some s =>
    simp only [resolveSessionId, optTruthy, Bool.not_false, Bool.true_and, Option.getD]
    by_cases hs : s = ""
    · subst hs; rfl
    · have hb : (s != "") = true := bne_iff_ne.mpr hs
      simp [hb, hs]

/-- A trace event carrying raw content `s` behaves as the identity on the
loop state when `s` fails to parse: the decode error is swallowed. -/
lemma malformed_trace_skip {loads : String → Option Json} {s : String}
    (hs : loads s = none) (st : PState) :
    processEvent loads (contentTraceEvent s) st = .ok st := by
  unfold processEvent
  have h2 : traceStep loads (contentTraceEvent s).trace st.responseText = .ok st.responseText := by
    show processTracePayload loads (contentTracePayload s) st.responseText = .ok st.responseText
    unfold processTracePayload
    have h0 : traceRawContent (contentTracePayload s) = .ok (some (.str s)) := rfl
    rw [h0]
    show catchDecode (parseWalk loads (Json.str s) st.responseText) st.responseText
      = .ok st.responseText
    have h1 : parseWalk loads (Json.str s) st.responseText = .error .jsonDecodeError := by
      unfold parseWalk
      have hp : parsedItems loads (Json.str s) = .error .jsonDecodeError := by
        simp only [parsedItems, pyJsonLoads, hs]
      rw [hp]
    rw [h1]
    rfl
  rw [h2]
  rfl

/-- On a non-object parse result every dictionary access raises
AttributeError. -/
lemma pyGetD_nonobj {j : Json} (hobj : j.isObj = false) (k : String) (d : Json) :
    pyGetD j k d = .error .attributeError := by
  cases j with
  | obj kvs => simp [Json.isObj] at hobj
  | null => rfl
  | bool b => rfl
  | num n => rfl
  | str s => rfl
  | arr xs => rfl

/-- A trace event whose raw content parses to a non-object always fails
with AttributeError. -/
lemma nonobj_trace_err {loads : String → Option Json} {s : String} {j : Json}
    (hs : loads s = some j) (hobj : j.isObj = false) (st : PState) :
    processEvent loads (contentTraceEvent s) st = .error .attributeError := by
  unfold processEvent
  have h2 : traceStep loads (contentTraceEvent s).trace st.responseText
      = .error .attributeError := by
    show processTracePayload loads (contentTracePayload s) st.responseText
      = .error .attributeError
    unfold processTracePayload
    have h0 : traceRawContent (contentTracePayload s) = .ok (some (.str s)) := rfl
    rw [h0]
    show catchDecode (parseWalk loads (Json.str s) st.responseText) st.responseText
      = .error .attributeError
    have h1 : parseWalk loads (Json.str s) st.responseText = .error .attributeError := by
      unfold parseWalk
      have hp : parsedItems loads (Json.str s) = .error .attributeError := by
        have e1 : pyJsonLoads loads (Json.str s) = .ok j := by
          simp only [pyJsonLoads, hs]
        unfold parsedItems
        rw [e1]
        show itemsOfParsed j = .error .attributeError
        unfold itemsOfParsed
        rw [pyGetD_nonobj hobj "output" (Json.obj [])]
      rw [hp]
    rw [h1]
    rfl
  rw [h2]

/-- An event with undecodable chunk bytes always fails. -/
lemma undecodableChunkEvent_err (loads : String → Option Json) (trOpt : Option Json)
    (sidc : Option String) (st : PState) :
    ∃ e, processEvent loads (undecodableChunkEvent trOpt sidc) st = .error e := by
  unfold processEvent
  cases htr : traceStep loads (undecodableChunkEvent trOpt sidc).trace st.responseText with
  | error e => exact ⟨e, rfl⟩
  | ok rt => exact ⟨.unicodeDecodeError, rfl⟩

/-! ## Claim theorems -/

/-- Claim C1 (code evidence): the claimed session-id precedence — top-level
envelope id, else chunk-carried id, else request id, else generated — is
violated by the code.  With no top-level id, one chunk carrying session id
"chunk-123", request id "req-1" and clock 7, `invoke_agent` returns the
freshly generated "session-7": the `else` branch at lines 186-189
overwrites the chunk-captured id instead of keeping it. -/
theorem C1_session_resolution_divergence :
    invokeAgent loadsW "q" false (some "req-1")
      (.ok { completion := some [chunkSessionEvent "chunk-123"], sessionId := none }) 7
      = .ok ("", "session-7") ∧ ("session-7" : String) ≠ "chunk-123" :=
  ⟨rfl, by decide⟩

/-- Claim C2: for every completed call whose stream contains a valid
send-message tool invocation (tool `AgentCommunication__sendMessage`,
recipient `User`, non-empty content), the returned response text equals
the content of the last such invocation, stripped — chunk text arriving
before, between or after never overwrites or extends it. -/
theorem C2_tool_precedence (loads : String → Option Json) (query : String) (privilege : Bool)
    (sidReq : Option String) (env : ResponseEnvelope) (now : Nat) (evs : List Event)
    (c : String) (res : String × String)
    (hcomp : env.completion = some evs)
    (hlast : streamLast loads evs = some (.str c))
    (hok : invokeAgent loads query privilege sidReq (.ok env) now = .ok res) :
    res.1 = stripStr c := by
  have hok2 : envelopeResult loads sidReq env.sessionId (completionState loads env) now
      = .ok res := hok
  have hcs0 : completionState loads env
      = processEvents loads evs { responseText := .str "", sessionId := none } := by
    unfold completionState
    rw [hcomp]
  rw [hcs0] at hok2
  unfold envelopeResult at hok2
  split at hok2
  · cases hok2
  · rename_i st hpe
    split at hok2
    · cases hok2
    · rename_i text htext
      have hrt : st.responseText = .str c := processEvents_last hlast hpe
      rw [hrt] at htext
      have htext2 : Except.ok (stripStr c) = Except.ok text := htext
      cases htext2
      cases hok2
      rfl

/-- Witness for C2 at a concrete stream: chunk text, then the tool
invocation carried by the "TOOL" raw content, then more chunk text; the
returned text is the tool content. -/
theorem C2_tool_precedence_witness :
    streamLast loadsW evsW = some (Json.str "Hello from tool") ∧
    invokeAgent loadsW "q" true none (.ok envW) 9 = .ok ("Hello from tool", "session-9") ∧
    ("Hello from tool", "session-9").1 = stripStr "Hello from tool" :=
  ⟨rfl, rfl,
    C2_tool_precedence loadsW "q" true none envW 9 evsW "Hello from tool"
      ("Hello from tool", "session-9") rfl rfl rfl⟩

/-- Claim C3 (code evidence): the claim that a chunks-only stream yields
the concatenation of all decoded chunk texts is violated: with chunks
"Hello" and " world" the code returns only "Hello", because the guard
`if not response_text:` at line 163 also blocks appending once any chunk
text has been stored. -/
theorem C3_chunk_concatenation_divergence :
    invokeAgent loadsW "q" false none
      (.ok { completion := some [chunkTextEvent "Hello", chunkTextEvent " world"],
             sessionId := none }) 5
      = .ok ("Hello", "session-5") ∧ ("Hello" : String) ≠ "Hello" ++ " world" :=
  ⟨rfl, by decide⟩

/-- Claim C4: a trace event whose raw-response payload fails to parse is
skipped without raising — the call behaves exactly as if that trace event
were absent from the stream. -/
theorem C4_malformed_trace_nonfatal (loads : String → Option Json) (query : String)
    (privilege : Bool) (sidReq top : Option String) (now : Nat)
    (pre post : List Event) (s : String) (hs : loads s = none) :
    invokeAgent loads query privilege sidReq
      (.ok { completion := some (pre ++ contentTraceEvent s :: post), sessionId := top }) now =
    invokeAgent loads query privilege sidReq
      (.ok { completion := some (pre ++ post), sessionId := top }) now := by
  show envelopeResult loads sidReq top
      (processEvents loads (pre ++ contentTraceEvent s :: post)
        { responseText := .str "", sessionId := none }) now
    = envelopeResult loads sidReq top
      (processEvents loads (pre ++ post) { responseText := .str "", sessionId := none }) now
  rw [processEvents_skip_middle (malformed_trace_skip hs) pre post]

/-- Witness for C4: inserting a malformed trace after a chunk leaves the
call's result unchanged. -/
theorem C4_malformed_trace_nonfatal_witness :
    loadsW "bad" = none ∧
    invokeAgent loadsW "q" false none
      (.ok { completion := some ([chunkTextEvent "Hi"] ++ contentTraceEvent "bad" :: []),
             sessionId := none }) 3 =
    invokeAgent loadsW "q" false none
      (.ok { completion := some ([chunkTextEvent "Hi"] ++ []), sessionId := none }) 3 :=
  ⟨rfl, C4_malformed_trace_nonfatal loadsW "q" false none none 3 [chunkTextEvent "Hi"] [] "bad" rfl⟩

/-- Claim C5: `privilege=true` selects the privileged agent/alias pair in
the constructed request and `privilege=false` selects the limited pair. -/
theorem C5_privilege_selects_pair (cfg : AgentConfig) (query : String)
    (sid : Option String) (now : Nat) :
    ((createAgentRequest cfg query true sid now).agentId = cfg.privilegedAgentId ∧
     (createAgentRequest cfg query true sid now).agentAliasId = cfg.privilegedAgentAliasId) ∧
    ((createAgentRequest cfg query false sid now).agentId = cfg.limitedAgentId ∧
     (createAgentRequest cfg query false sid now).agentAliasId = cfg.limitedAgentAliasId) :=
  ⟨⟨rfl, rfl⟩, ⟨rfl, rfl⟩⟩

/-- Claim C6: a service ClientError from the backing call propagates
unchanged — the result is exactly that error, carrying the same code and
message, and no extraction result is returned. -/
theorem C6_client_error_propagates (loads : String → Option Json) (query : String)
    (privilege : Bool) (sid : Option String) (e : ClientError) (now : Nat) :
    invokeAgent loads query privilege sid (.error e) now = .error (.client e) := rfl

/-- Claim C7: a chunk whose bytes cannot be decoded as UTF-8 is fatal for
the call wherever it occurs in the stream: the call raises and no
extraction result is returned. -/
theorem C7_undecodable_chunk_fatal (loads : String → Option Json) (query : String)
    (privilege : Bool) (sidReq top : Option String) (now : Nat)
    (pre post : List Event) (trOpt : Option Json) (sidc : Option String) :
    ∃ ie, invokeAgent loads query privilege sidReq
      (.ok { completion := some (pre ++ undecodableChunkEvent trOpt sidc :: post),
             sessionId := top }) now = .error ie := by
  obtain ⟨e, he⟩ := processEvents_err_middle (undecodableChunkEvent_err loads trOpt sidc)
    pre post { responseText := .str "", sessionId := none }
  refine ⟨.streamFailure e, ?_⟩
  show envelopeResult loads sidReq top
      (processEvents loads (pre ++ undecodableChunkEvent trOpt sidc :: post)
        { responseText := .str "", sessionId := none }) now = .error (.streamFailure e)
  rw [he]
  rfl

/-- Counterexample to claim C8 as stated: an empty event stream with no
top-level session id does NOT always return a generated identifier — with
request session id "abc" and clock 1000 the call returns "abc", not the
time-derived "session-1000". -/
theorem C8_empty_stream_counterexample :
    invokeAgent loadsW "q" false (some "abc")
      (.ok { completion := some [], sessionId := none }) 1000 = .ok ("", "abc") ∧
    ("abc" : String) ≠ genSessionId 1000 :=
  ⟨rfl, by decide⟩

/-- Claim C8 (amended): an empty event stream with no top-level session id
yields response text "" together with the request-supplied session id when
a non-empty one was supplied, and a freshly generated time-derived
identifier otherwise. -/
theorem C8_empty_stream_amended (loads : String → Option Json) (query : String)
    (privilege : Bool) (sid : Option String) (now : Nat) :
    invokeAgent loads query privilege sid
      (.ok { completion := some [], sessionId := none }) now =
      .ok ("", match sid with
               | some s => if s = "" then genSessionId now else s
               | none => genSessionId now) :=
  congrArg (fun x => Except.ok (("" : String), x)) (resolveSessionId_none_none sid now)

/-- Claim C9: when a trace's raw content parses to valid JSON that is not
an object (an array, a bare string, ...), the call raises instead of
skipping the trace: only JSON-decode failures are recovered locally. -/
theorem C9_nonobject_parse_fatal (loads : String → Option Json) (query : String)
    (privilege : Bool) (sidReq top : Option String) (now : Nat)
    (pre post : List Event) (s : String) (j : Json)
    (hs : loads s = some j) (hobj : j.isObj = false) :
    ∃ ie, invokeAgent loads query privilege sidReq
      (.ok { completion := some (pre ++ contentTraceEvent s :: post), sessionId := top }) now
      = .error ie := by
  have hbad : ∀ st : PState, ∃ e, processEvent loads (contentTraceEvent s) st = .error e :=
    fun st => ⟨.attributeError, nonobj_trace_err hs hobj st⟩
  obtain ⟨e, he⟩ := processEvents_err_middle hbad pre post
    { responseText := .str "", sessionId := none }
  refine ⟨.streamFailure e, ?_⟩
  show envelopeResult loads sidReq top
      (processEvents loads (pre ++ contentTraceEvent s :: post)
        { responseText := .str "", sessionId := none }) now = .error (.streamFailure e)
  rw [he]
  rfl

/-- Witness for C9: a trace whose raw content "ARR" parses to a JSON array
makes the call fail. -/
theorem C9_nonobject_parse_fatal_witness :
    loadsW "ARR" = some (Json.arr [Json.num 1]) ∧
    Json.isObj (Json.arr [Json.num 1]) = false ∧
    ∃ ie, invokeAgent loadsW "q" false none
      (.ok { completion := some ([] ++ contentTraceEvent "ARR" :: []), sessionId := none }) 3
      = .error ie :=
  ⟨rfl, rfl,
    C9_nonobject_parse_fatal loadsW "q" false none none 3 [] [] "ARR"
      (Json.arr [Json.num 1]) rfl rfl⟩

/-- Claim C10: an envelope with no completion entry does not raise: the
call returns response text "" and a session id resolved by the same
precedence — the top-level id if present, else the (non-empty)
request-supplied id, else a generated one. -/
theorem C10_no_completion_key (loads : String → Option Json) (query : String)
    (privilege : Bool) (sid top : Option String) (now : Nat) :
    invokeAgent loads query privilege sid
      (.ok { completion := none, sessionId := top }) now =
      .ok ("", match top with
               | some t => t
               | none => match sid with
                         | some s => if s = "" then genSessionId now else s
                         | none => genSessionId now) := by
  cases top with
  | some t => rfl
  | none =>
    exact congrArg (fun x => Except.ok (("" : String), x)) (resolveSessionId_none_none sid now)

end OscarAgent
